import Mathlib

/-!
Verification development for the instagram-dm-navigator extension.

The JavaScript sources are shallowly embedded in Lean:

* DOM access (querySelectorAll, textContent, parentElement, matches,
  getAttribute, dataset, getBoundingClientRect, ...) is modelled as an
  oracle structure whose fields are arbitrary functions; each concrete
  document instantiates the oracle.  Elements are identified by natural
  numbers.
* JavaScript numbers that carry detection confidences are multiples of
  0.01 in the source (0.95, 0.9, 0.85, 0.8, 0.7, 0.6, 0.5, 0.3,
  0.75, 0.05, 0.02, ...).  They are represented exactly as naturals in
  hundredths (95, 90, ...), so all arithmetic and comparisons are exact
  and decidable.
* Fallible computations return `JSResult`, whose `thrown` constructor
  models a JavaScript exception.  The file holding `DOMDetector`
  (src/unnamed/part_001) uses `export default`, hence is an ES module
  and runs in strict mode: there, an assignment to an undeclared
  identifier throws a ReferenceError.
* `Date.now()` and `Math.random()` are passed in as explicit parameters.
-/

/-- A JavaScript exception: either the strict-mode ReferenceError raised by
assigning to the undeclared identifier `elements` in `DOMDetector.detect`
(src/unnamed/part_001, the `class`, `structure` and `fallback` branches,
whose earlier `let elements` declarations are scoped to sibling blocks),
or a DOM exception raised by a DOM API call. -/
inductive JSErr where
  | referenceError
  | domException (msg : String)
deriving DecidableEq, Repr

/-- Result of running a JavaScript computation: a value, or a thrown
exception propagating out of the function. -/
inductive JSResult (α : Type) where
  | ok (val : α)
  | thrown (e : JSErr)
deriving DecidableEq, Repr

/-- `error.message` of a modelled exception. -/
def JSErr.message : JSErr → String
  | .referenceError => "elements is not defined"
  | .domException m => m

/-- JavaScript string truthiness on a nullable string: `null`, `undefined`
and `""` are falsy. -/
def truthyS : Option String → Option String
  | some s => if s = "" then none else some s
  | none => none

/-- `a || b` on nullable strings: the first truthy operand, if any. -/
def jsOrS (a b : Option String) : Option String :=
  match truthyS a with
  | some s => some s
  | none => truthyS b

/-- Whitespace for the purposes of `String.prototype.trim`. -/
def isWS (ch : Char) : Bool := ch = ' ' || ch = '\t' || ch = '\n' || ch = '\r'

/-- `trim()` on the character list of a string. -/
def trimChars (l : List Char) : List Char :=
  ((l.dropWhile isWS).reverse.dropWhile isWS).reverse

/-- `s.trim()`. -/
def jsTrim (s : String) : String := String.mk (trimChars s.data)

/-- Case-insensitive (when `ci`) character comparison. -/
def charEqCI (ci : Bool) (a b : Char) : Bool :=
  if ci then a.toLower = b.toLower else a = b

/-- If `lit` is a (case-insensitive when `ci`) prefix of the second list,
return the remainder after it. -/
def litPrefixCI (ci : Bool) : List Char → List Char → Option (List Char)
  | [], s => some s
  | _ :: _, [] => none
  | a :: la, b :: lb => if charEqCI ci a b then litPrefixCI ci la lb else none

/-- The regex character class `[a-zA-Z0-9_-]` used by every reel-id capture
group in the sources. -/
def idChar (c : Char) : Bool := c.isAlphanum || c = '_' || c = '-'

/-- First match of the regex `lit([a-zA-Z0-9_-]+)` over a string, scanning
left to right exactly as a regex engine does (an occurrence of `lit`
followed by no id character is skipped and scanning continues).  Returns
(matched text, capture group 1). -/
def scanCapture (ci : Bool) (lit : List Char) : List Char → Option (List Char × List Char)
  | [] => none
  | c :: t =>
    match litPrefixCI ci lit (c :: t) with
    | some rest =>
      let run := rest.takeWhile idChar
      if run.isEmpty then scanCapture ci lit t
      else some ((c :: t).take lit.length ++ run, run)
    | none => scanCapture ci lit t

/-- `scanCapture` packaged on strings. -/
def scanCaptureS (ci : Bool) (lit s : String) : Option (String × String) :=
  (scanCapture ci lit.data s.data).map (fun p => (String.mk p.1, String.mk p.2))

/-- Substring containment (`String.prototype.includes`). -/
def strContainsL : List Char → List Char → Bool
  | [], needle => needle.isEmpty
  | a :: t, needle => needle.isPrefixOf (a :: t) || strContainsL t needle

/-- `hay.includes(needle)`. -/
def strContains (hay needle : String) : Bool := strContainsL hay.data needle.data

/-- A selector/method pair persisted by `DOMDetector` after a successful
detection (src/unnamed/part_001, `this.cachedSelectors[cacheKey] =
{ selector, method }`). -/
structure CacheEntry where
  selector : String
  method : String
deriving DecidableEq, Repr

/-- The in-memory `this.cachedSelectors` dictionary, keyed by cache key. -/
abbrev SelectorCache := List (String × CacheEntry)

/-- `this.cachedSelectors[cacheKey]`. -/
def lookupCache (c : SelectorCache) (k : String) : Option CacheEntry :=
  (List.find? (fun p => p.1 = k) c).map (fun p => p.2)

/-- Remove the entry for `k` (used to state what a cache without the entry
would do; the source never deletes entries). -/
def eraseCache (c : SelectorCache) (k : String) : SelectorCache :=
  List.filter (fun p => ¬ (p.1 = k)) c

/-- `this.cachedSelectors[cacheKey] = e` (overwrite). -/
def insertCache (c : SelectorCache) (k : String) (e : CacheEntry) : SelectorCache :=
  (k, e) :: eraseCache c k

namespace DOMDetector

/-- The document oracle for `DOMDetector` (src/unnamed/part_001):
`document.querySelectorAll` over the live document (returning element ids,
or throwing a DOM exception), and `textContent` of an element (`""` for a
node with no text, matching the falsiness guard in the source). -/
structure Dom where
  query : String → JSResult (List Nat)
  text : Nat → String

/-- The selector table passed to `detect` (src/unnamed/part_001).  The JS
object keys `attribute`, `class` and `structure` are Lean keywords and are
named `attrSel`, `clsSel` and `structSel` here; a missing key is `none`. -/
structure Selectors where
  instagram : Option String := none
  testId : Option String := none
  ariaLabel : Option String := none
  attrSel : Option String := none
  clsSel : Option String := none
  structSel : Option String := none
  fallback : Option String := none
deriving DecidableEq, Repr

/-- The object returned by one classification attempt
(src/unnamed/part_001).  `confidence` is in hundredths;
`timestamp` is the `Date.now()` value at creation. -/
structure DetectionResult where
  elements : List Nat
  confidence : Nat
  method : String
  cached : Bool
  timestamp : Nat
deriving DecidableEq, Repr

/-- The `{ elements: [], confidence: 0, method: 'none', cached: false,
timestamp: Date.now() }` value returned when nothing matched. -/
def emptyResult (now : Nat) : DetectionResult :=
  { elements := [], confidence := 0, method := "none", cached := false, timestamp := now }

/-- One strategy block of `detect` of the well-declared form
(the `instagram`, `testId`, `ariaLabel` and `attribute` branches, which
declare `let elements`): if the selector key is present and truthy, query
it; a non-empty result returns immediately and records the selector in the
cache; otherwise fall through to the continuation.  The chain is passed as
a list of (selector key, method name, confidence) triples in source
order. -/
def okChain (doc : Dom) (cacheKey : String) (now : Nat) :
    List (Option String × String × Nat) → SelectorCache →
    (SelectorCache → JSResult (DetectionResult × SelectorCache)) →
    JSResult (DetectionResult × SelectorCache)
  | [], c, ft => ft c
  | (sel?, m, conf) :: rest, c, ft =>
    match truthyS sel? with
    | none => okChain doc cacheKey now rest c ft
    | some sel =>
      match doc.query sel with
      | .thrown e => .thrown e
      | .ok els =>
        if els.isEmpty then okChain doc cacheKey now rest c ft
        else .ok ({ elements := els, confidence := conf, method := m, cached := false,
                    timestamp := now },
                  insertCache c cacheKey ⟨sel, m⟩)

/-- The `class`, `structure` and `fallback` blocks of `detect`
(src/unnamed/part_001 lines 204-230).  These blocks assign
`elements = document.querySelectorAll(...)` without a declaration; the
earlier `let elements` bindings are scoped to the preceding blocks, the
module declares no other `elements`, and the file is an ES module (strict
mode), so the assignment itself throws a ReferenceError after the query
evaluates.  The branch is still guarded by the truthiness of the selector
key, so an absent key falls through to the continuation. -/
def errChain (doc : Dom) :
    List (Option String) → JSResult (DetectionResult × SelectorCache) →
    JSResult (DetectionResult × SelectorCache)
  | [], ft => ft
  | sel? :: rest, ft =>
    match truthyS sel? with
    | none => errChain doc rest ft
    | some sel =>
      match doc.query sel with
      | .thrown e => .thrown e
      | .ok _ => .thrown .referenceError

/-- The strategy-search part of `DOMDetector.detect`
(src/unnamed/part_001 lines 163-234): instagram, testId, ariaLabel and
attribute branches in priority order, then the class, structure and
fallback branches, then the empty result. -/
def detectSearch (doc : Dom) (s : Selectors) (cacheKey : String) (c : SelectorCache)
    (now : Nat) : JSResult (DetectionResult × SelectorCache) :=
  okChain doc cacheKey now
    [(s.instagram, "instagram", 95), (s.testId, "testId", 90),
     (s.ariaLabel, "ariaLabel", 85), (s.attrSel, "attribute", 80)] c
    (fun c1 =>
      errChain doc [s.clsSel, s.structSel, s.fallback]
        (.ok (emptyResult now, c1)))

/-- `DOMDetector.detect(selectors, cacheKey)` (src/unnamed/part_001
lines 153-235).  The cached selector, when present, is tried first and a
non-empty match returns immediately with confidence 1 and `cached: true`;
a stale entry falls through to the full strategy search. -/
def detect (doc : Dom) (s : Selectors) (cacheKey : String) (c : SelectorCache)
    (now : Nat) : JSResult (DetectionResult × SelectorCache) :=
  match lookupCache c cacheKey with
  | some entry =>
    match doc.query entry.selector with
    | .thrown e => .thrown e
    | .ok els =>
      if els.isEmpty then detectSearch doc s cacheKey c now
      else .ok ({ elements := els, confidence := 100, method := entry.method,
                  cached := true, timestamp := now }, c)
  | none => detectSearch doc s cacheKey c now

/-- `selectors.fallback || 'span, time, div'`. -/
def fallbackOrDefault (sel? : Option String) : String :=
  match truthyS sel? with
  | some s => s
  | none => "span, time, div"

/-- `DOMDetector.detectWithTextPattern(selectors, cacheKey, textPattern)`
(src/unnamed/part_001 lines 123-151): standard detection first; if it
returned elements, they win; otherwise all elements matching the fallback
selector are filtered to those whose trimmed text is truthy, matches the
pattern and has length below 50, returning confidence 0.6 and method
`text-pattern`, or the empty result.  `pat` is the `test` function of the
supplied regular expression. -/
def detectWithTextPattern (doc : Dom) (s : Selectors) (cacheKey : String)
    (pat : String → Bool) (c : SelectorCache) (now : Nat) :
    JSResult (DetectionResult × SelectorCache) :=
  match detect doc s cacheKey c now with
  | .thrown e => .thrown e
  | .ok (std, c1) =>
    if std.elements.length > 0 then .ok (std, c1)
    else
      match doc.query (fallbackOrDefault s.fallback) with
      | .thrown e => .thrown e
      | .ok allElements =>
        let timeElements := allElements.filter (fun el =>
          let t := jsTrim (doc.text el)
          !(t = "") && pat t && t.length < 50)
        if timeElements.length > 0 then
          .ok ({ elements := timeElements, confidence := 60, method := "text-pattern",
                 cached := false, timestamp := now }, c1)
        else .ok (emptyResult now, c1)

/-- The selector table of `detectMessageContainers`
(src/unnamed/part_001 lines 81-92). -/
def messageContainerSelectors : Selectors :=
  { attrSel := some "div[role=\"none\"][class*=\"x78zum5 xdt5ytf x1n2onr6\"]",
    clsSel := some ".message-container",
    structSel := some "div > div > div > div[role=\"none\"]",
    instagram := some "div[data-testid=\"message-bubble\"], div[role=\"button\"][tabindex=\"0\"]",
    fallback := some "div[class*=\"message\"], div[class*=\"bubble\"]" }

/-- The selector table of `detectTimestampElements`
(src/unnamed/part_001 lines 95-107). -/
def timestampSelectors : Selectors :=
  { ariaLabel := some "[aria-label*=\"ago\"], [aria-label*=\"yesterday\"], [aria-label*=\"today\"], [aria-label*=\"minute\"], [aria-label*=\"hour\"], [aria-label*=\"day\"]",
    testId := some "span[data-testid=\"message-timestamp\"], span[data-testid=\"timestamp\"]",
    clsSel := some ".timestamp, .time, [class*=\"timestamp\"], [class*=\"time\"]",
    structSel := some "div > span, div > time, div > div[class*=\"time\"]",
    fallback := some "span, time, div" }

/-- The selector table of `detectLoadingStates`
(src/unnamed/part_001 lines 113-119). -/
def loadingStateSelectors : Selectors :=
  { attrSel := some "div[data-testid=\"loading-spinner\"]",
    clsSel := some ".loading-spinner",
    structSel := some "div > div[aria-busy=\"true\"]" }

/-- `\w` of the timestamp regex. -/
def jsWordChar (c : Char) : Bool := c.isAlphanum || c = '_'

/-- A word boundary `\b` holds after the match if the next character is not
a word character (or the string ends). -/
def boundaryAfter : List Char → Bool
  | [] => true
  | c :: _ => !jsWordChar c

/-- Case-insensitive literal followed by a word boundary. -/
def litCIThenBoundary (lit : String) (l : List Char) : Bool :=
  match litPrefixCI true lit.data l with
  | some rest => boundaryAfter rest
  | none => false

/-- `\d+[mhd]\b` (case-insensitive) at the head of the list. -/
def digitRunThenMHD (l : List Char) : Bool :=
  let ds := l.takeWhile Char.isDigit
  if ds.isEmpty then false
  else
    match l.drop ds.length with
    | c :: t => (c.toLower = 'm' || c.toLower = 'h' || c.toLower = 'd') && boundaryAfter t
    | [] => false

/-- One of the alternatives of the timestamp regex matching at the head of
the list (the preceding boundary is checked by the caller). -/
def tsPatAt (l : List Char) : Bool :=
  digitRunThenMHD l || litCIThenBoundary "yesterday" l || litCIThenBoundary "today" l ||
    litCIThenBoundary "now" l

/-- Scanner for the timestamp regex; the flag records whether the previous
character was a non-word character (so a `\b` holds here). -/
def tsPatGo : Bool → List Char → Bool
  | _, [] => false
  | prevNonWord, c :: t => (prevNonWord && tsPatAt (c :: t)) || tsPatGo (!jsWordChar c) t

/-- `/\b\d+[mhd]\b|\byesterday\b|\btoday\b|\bnow\b/i.test(s)`
(src/unnamed/part_001 line 109). -/
def timestampPattern (s : String) : Bool := tsPatGo true s.data

/-- `DOMDetector.detectMessageContainers()` (src/unnamed/part_001
lines 81-93). -/
def detectMessageContainers (doc : Dom) (c : SelectorCache) (now : Nat) :
    JSResult (DetectionResult × SelectorCache) :=
  detect doc messageContainerSelectors "messageContainers" c now

/-- `DOMDetector.detectTimestampElements()` (src/unnamed/part_001
lines 95-110). -/
def detectTimestampElements (doc : Dom) (c : SelectorCache) (now : Nat) :
    JSResult (DetectionResult × SelectorCache) :=
  detectWithTextPattern doc timestampSelectors "timestampElements" timestampPattern c now

/-- `DOMDetector.detectLoadingStates()` (src/unnamed/part_001
lines 113-121). -/
def detectLoadingStates (doc : Dom) (c : SelectorCache) (now : Nat) :
    JSResult (DetectionResult × SelectorCache) :=
  detect doc loadingStateSelectors "loadingStates" c now

end DOMDetector

namespace DOMDetector8

/-- The result object of the part_008 `DOMDetector` methods
(src/unnamed/part_008): on the normal path `{ elements, confidence,
method, selector }`, on the catch path `{ elements: [], confidence: 0,
error, method: 'error' }`. -/
structure Det8Result where
  elements : List Nat
  confidence : Nat
  method : String
  selector : Option String
  errMsg : Option String
deriving DecidableEq, Repr

/-- `this.selectors.messageContainers` (src/unnamed/part_008 lines 44-55). -/
def mcSelectors : List String :=
  ["[data-testid=\"message-bubble\"]",
   "[data-testid=\"message\"]",
   "div[role=\"row\"][data-testid*=\"message\"]",
   "[aria-label*=\"message\"]",
   "[data-testid=\"conversation\"] div[role=\"button\"]",
   "[data-testid=\"conversation\"] div[data-testid*=\"message\"]",
   "[role=\"main\"] div[role=\"button\"]",
   "main div[role=\"button\"]"]

/-- The selector loop of `detectMessageContainers` (src/unnamed/part_008
lines 92-115): every matching selector appends its elements, raises the
confidence to a priority-capped value growing with the match count, and
overwrites the method name.  `i` is the loop index. -/
def mcGo (doc : DOMDetector.Dom) (i : Nat) :
    List String → List Nat × Nat × String → JSResult (List Nat × Nat × String)
  | [], acc => .ok acc
  | sel :: rest, (els, conf, meth) =>
    match doc.query sel with
    | .thrown e => .thrown e
    | .ok found =>
      if found.length > 0 then
        let cap := if i < 4 then 95 else if i < 6 then 85 else 70
        let base := if i < 4 then 70 else if i < 6 then 60 else 40
        let m := if i < 4 then "instagram-specific"
                 else if i < 6 then "conversation-structure" else "fallback"
        mcGo doc (i + 1) rest (els ++ found, Nat.max conf (Nat.min cap (base + 2 * found.length)), m)
      else mcGo doc (i + 1) rest (els, conf, meth)

/-- `DOMDetector.detectMessageContainers()` of src/unnamed/part_008
(lines 86-132): the selector loop, then the minimum-confidence bump
(`elements.length > 0 && confidence < 0.7` raises confidence to 0.7),
inside a try/catch whose catch converts an exception into
`{ elements: [], confidence: 0, error: message, method: 'error' }`. -/
def detectMessageContainers (doc : DOMDetector.Dom) : Det8Result :=
  match mcGo doc 0 mcSelectors ([], 0, "none") with
  | .ok (els, conf, meth) =>
    let conf2 := if els.length > 0 && conf < 70 then 70 else conf
    { elements := els, confidence := conf2, method := meth,
      selector := mcSelectors.head?, errMsg := none }
  | .thrown e =>
    { elements := [], confidence := 0, method := "error",
      selector := none, errMsg := some e.message }

end DOMDetector8

/-- Oracle for element-level DOM access used by the reel and container
functions.  Elements are natural numbers; every field mirrors one DOM API:
`parent` is `parentElement` (none at the root), `attr` is `getAttribute`,
`elMatches e sel` is `e.matches(sel)`, `queryAll e sel` is
`e.querySelectorAll(sel)` in document order, `closest` is `e.closest(sel)`,
`dataset e k` is `e.dataset[k]`, `hrefProp`/`srcProp` are the `href`/`src`
properties (none when undefined), `rectW`/`rectH` are the bounding-box
width and height (integers suffice for the source thresholds 50, 20, 100,
40), `styleSet e p` is the truthiness of the inline style property `p`,
`children e` is `e.children`, and `body` is `document.body`. -/
structure EDom where
  parent : Nat → Option Nat
  tagName : Nat → String
  className : Nat → String
  attr : Nat → String → Option String
  elMatches : Nat → String → Bool
  queryAll : Nat → String → List Nat
  closest : Nat → String → Option Nat
  dataset : Nat → String → Option String
  hrefProp : Nat → Option String
  srcProp : Nat → Option String
  text : Nat → String
  rectW : Nat → Int
  rectH : Nat → Int
  styleSet : Nat → String → Bool
  children : Nat → List Nat
  body : Nat

/-- `e.querySelector(sel)`: first element of `querySelectorAll`. -/
def EDom.queryOne (d : EDom) (e : Nat) (sel : String) : Option Nat :=
  (d.queryAll e sel).head?

/-- `k`-fold iteration of `parentElement` (0 steps returns the element
itself). -/
def iterParent (d : EDom) : Nat → Nat → Option Nat
  | 0, e => some e
  | k + 1, e =>
    match d.parent e with
    | some p => iterParent d k p
    | none => none

/-- `x` is reachable from `e` by walking `parentElement` links zero or more
times, i.e. it is an ancestor-or-self of `e`.  In an acyclic DOM tree this
excludes every strict descendant of `e`. -/
def IsAncestorOrSelf (d : EDom) (e x : Nat) : Prop :=
  ∃ k, iterParent d k e = some x

namespace ContentScript

/-- The container selector list of `findMessageContainer`
(src/content-scripts/content.js lines 301-311). -/
def containerSelectors : List String :=
  ["[role=\"listitem\"]", ".message-container", ".message", "[data-testid*=\"message\"]",
   ".conversation-item", "[data-testid*=\"conversation\"]", ".conversation", ".chat-item",
   ".dm-item"]

/-- The upward walk of `findMessageContainer`
(src/content-scripts/content.js lines 313-340): while the current element
exists, is not `document.body` and the depth is below 10, return it if it
matches a container selector or carries a `data-testid` or `role`
attribute or a class name containing `message`, `conversation` or `chat`;
otherwise step to the parent.  The fuel argument is `maxDepth - depth`. -/
def findWalk (d : EDom) : Nat → Nat → Option Nat
  | 0, _ => none
  | fuel + 1, cur =>
    if cur = d.body then none
    else if containerSelectors.any (fun sel => d.elMatches cur sel) then some cur
    else if (d.attr cur "data-testid").isSome || (d.attr cur "role").isSome ||
            strContains (d.className cur) "message" ||
            strContains (d.className cur) "conversation" ||
            strContains (d.className cur) "chat" then some cur
    else
      match d.parent cur with
      | some p => findWalk d fuel p
      | none => none

/-- `findMessageContainer(reelElement)` (src/content-scripts/content.js
lines 296-356): the bounded upward walk, then the fallback
`if (reelElement.parentElement && reelElement.parentElement.tagName ===
'DIV') return reelElement.parentElement`, else null. -/
def findMessageContainer (d : EDom) (reelElement : Nat) : Option Nat :=
  match findWalk d 10 reelElement with
  | some c => some c
  | none =>
    match d.parent reelElement with
    | some p => if d.tagName p = "DIV" then some p else none
    | none => none

end ContentScript

namespace Part004

/-- The container selector list of the part_004 `findMessageContainer`
(src/unnamed/part_004 lines 527-539). -/
def containerSelectors : List String :=
  ["[role=\"row\"]", "[role=\"button\"]", "div[style*=\"padding\"][style*=\"margin\"]",
   "[role=\"listitem\"]", "[data-testid*=\"message\"]", "[class*=\"message\"]",
   ".conversation-item", ".chat-item"]

/-- The per-ancestor test of the part_004 walk (src/unnamed/part_004
lines 553-587), applied only above depth 0: a selector match of
sufficient size (width > 50 and height > 20), or Instagram-specific
characteristics (role row/button, truthy inline padding/margin/background
style, or a class name containing message/bubble/chat) of sufficient
size. -/
def containerCheck (d : EDom) (cur : Nat) : Bool :=
  let sizeOk := d.rectW cur > 50 && d.rectH cur > 20
  (containerSelectors.any (fun sel => d.elMatches cur sel) && sizeOk) ||
  (((d.attr cur "role" = some "row") || (d.attr cur "role" = some "button") ||
    d.styleSet cur "padding" || d.styleSet cur "margin" || d.styleSet cur "backgroundColor" ||
    (!(d.className cur = "") &&
      (strContains (d.className cur) "message" || strContains (d.className cur) "bubble" ||
       strContains (d.className cur) "chat"))) && sizeOk)

/-- The upward walk of the part_004 `findMessageContainer`
(src/unnamed/part_004 lines 541-591), maxDepth 8; the element itself
(depth 0) is skipped (`if (depth > 0)`). -/
def findWalk (d : EDom) : Nat → Nat → Bool → Option Nat
  | 0, _, _ => none
  | fuel + 1, cur, first =>
    if cur = d.body then none
    else if !first && containerCheck d cur then some cur
    else
      match d.parent cur with
      | some p => findWalk d fuel p false
      | none => none

/-- The fallback loop of the part_004 `findMessageContainer`
(src/unnamed/part_004 lines 593-606): from the parent, up to 3 levels,
return the first ancestor that is not `document.body` with width > 100 and
height > 40. -/
def fallbackWalk (d : EDom) : Nat → Option Nat → Option Nat
  | 0, _ => none
  | _, none => none
  | fuel + 1, some e =>
    if e = d.body then none
    else if d.rectW e > 100 && d.rectH e > 40 then some e
    else fallbackWalk d fuel (d.parent e)

/-- `findMessageContainer(reelElement)` (src/unnamed/part_004
lines 517-616): null for an element without a parent, else the bounded
upward walk, else the size-filtered fallback over the first three
ancestors, else null. -/
def findMessageContainer (d : EDom) (reelElement : Nat) : Option Nat :=
  match d.parent reelElement with
  | none => none
  | some _ =>
    match findWalk d 8 reelElement true with
    | some c => some c
    | none => fallbackWalk d 3 (d.parent reelElement)

/-- The URL pattern list of `extractReelIdFromUrl` (src/unnamed/part_004
lines 485-491): each regex is a literal followed by the capture group
`([A-Za-z0-9_-]+)`. -/
def urlPatterns : List String := ["/reel/", "/reels/", "reel=", "video_id=", "media_id="]

/-- `extractReelIdFromUrl(url)` (src/unnamed/part_004 lines 476-510): the
first pattern whose first regex match has a capture longer than 3
characters wins; otherwise null. -/
def extractReelIdFromUrl (url : String) : Option String :=
  List.findSome? (fun p =>
    match scanCaptureS false p url with
    | some (_, cap) => if cap.length > 3 then some cap else none
    | none => none) urlPatterns

/-- The input of `extractReelId(elementOrUrl)`: a DOM element, a string, or
anything else. -/
inductive JSInput where
  | elem (e : Nat)
  | str (s : String)
  | other
deriving DecidableEq, Repr

/-- `Date.now().toString().slice(-8)`. -/
def lastDigits8 (now : Nat) : String :=
  let s := toString now
  s.drop (s.length - 8)

/-- `Array.prototype.indexOf` (src line 460): the index of the first
occurrence, or -1. -/
def jsIndexOf (l : List Nat) (x : Nat) : Int :=
  match List.findIdx? (fun a => a = x) l with
  | some i => (i : Int)
  | none => -1

/-- `extractReelId(elementOrUrl)` (src/unnamed/part_004 lines 396-469).
For an element: href, then a descendant video src, then a descendant img
src, each through `extractReelIdFromUrl`; then a positional id
`msg_(index)_(last 8 digits of Date.now())` built from the message
container found by the part_004 `findMessageContainer` (reading
`.parentElement.children` of the container; a null parent makes that
property access throw, and the surrounding catch returns an
`error_(now)_(rand)` id); finally an `unknown_(now)_(rand)` id.  For a
string: `extractReelIdFromUrl`.  Anything else returns null.  `rand`
stands for `Math.random().toString(36).slice(2, 8)`. -/
def extractReelId (d : EDom) (input : JSInput) (now : Nat) (rand : String) : Option String :=
  match input with
  | .str s => extractReelIdFromUrl s
  | .other => none
  | .elem el =>
    match (jsOrS (d.hrefProp el) (d.attr el "href")).bind extractReelIdFromUrl with
    | some id => some id
    | none =>
      let videoElement := if d.tagName el = "VIDEO" then some el else d.queryOne el "video"
      match videoElement.bind (fun v =>
          (jsOrS (d.srcProp v) (d.attr v "src")).bind extractReelIdFromUrl) with
      | some id => some id
      | none =>
        let imgElement := if d.tagName el = "IMG" then some el else d.queryOne el "img"
        match imgElement.bind (fun im =>
            (jsOrS (d.srcProp im) (d.attr im "src")).bind extractReelIdFromUrl) with
        | some id => some id
        | none =>
          match findMessageContainer d el with
          | some mc =>
            match d.parent mc with
            | some par =>
              some ("msg_" ++ toString (jsIndexOf (d.children par) mc) ++ "_" ++ lastDigits8 now)
            | none => some ("error_" ++ toString now ++ "_" ++ rand)
          | none => some ("unknown_" ++ toString now ++ "_" ++ rand)

end Part004

namespace ReelDetector

/-- `ReelDetector.extractReelId(element)` (src/unnamed/part_001
lines 809-840, identical in src/unnamed/part_008 lines 570-601): data
attributes `reelId`/`reel`/`id`, then the element href, then the closest
ancestor reel link, then descendant reel links, each matched against
`/\/reel\/([a-zA-Z0-9_-]+)/i`; returns null when nothing matches. -/
def extractReelId (d : EDom) (element : Option Nat) : Option String :=
  match element with
  | none => none
  | some el =>
    match jsOrS (jsOrS (d.dataset el "reelId") (d.dataset el "reel")) (d.dataset el "id") with
    | some dataReelId => some dataReelId
    | none =>
      let capture := fun (href : String) => (scanCaptureS true "/reel/" href).map Prod.snd
      match (jsOrS (d.hrefProp el) (d.attr el "href")).bind capture with
      | some id => some id
      | none =>
        match (d.closest el "a[href*=\"/reel/\"]").bind
            (fun link => (d.hrefProp link).bind capture) with
        | some id => some id
        | none =>
          List.findSome? (fun link => (d.hrefProp link).bind capture)
            (d.queryAll el "a[href*=\"/reel/\"]")

/-- `ReelDetector.calculateReelConfidence(method, reelId, element)`
(src/unnamed/part_001 lines 843-877): base 0.9 / 0.75 / 0.5 by method,
plus 0.05 for a truthy reel id of length at least 8, plus 0.05 for a
truthy `data-testid` attribute, capped at 1.  In hundredths. -/
def calculateReelConfidence (d : EDom) (method : String) (reelId : Option String)
    (element : Option Nat) : Nat :=
  let base := if method = "url_pattern" then 90
              else if method = "visual_indicators" then 75 else 50
  let c1 := match truthyS reelId with
    | some r => if r.length ≥ 8 then base + 5 else base
    | none => base
  let c2 := match element with
    | some e => match truthyS (d.attr e "data-testid") with
      | some _ => c1 + 5
      | none => c1
    | none => c1
  Nat.min c2 100

/-- The result object of the `ReelDetector` detection methods
(src/unnamed/part_001).  `confidence` is in hundredths. -/
structure ReelResult where
  isReel : Bool
  confidence : Nat
  reelId : Option String
  detectionMethod : String
  reelUrl : Option String
  messageElement : Nat
  linkElement : Option Nat
  visualElement : Option Nat
deriving DecidableEq, Repr

/-- The reel URL regexes of `detectByUrlPattern` (src/unnamed/part_001
lines 689-697), all case-insensitive, each a literal followed by
`([a-zA-Z0-9_-]+)`. -/
def urlPatterns : List String := ["instagram.com/reel/", "/reel/", "ig.me/", "reel/"]

/-- First pattern match of a string against `urlPatterns`, in source
order, returning (matched text, capture group 1). -/
def firstUrlPatternMatch (s : String) : Option (String × String) :=
  List.findSome? (fun p => scanCaptureS true p s) urlPatterns

/-- `ReelDetector.detectByUrlPattern(messageElement)`
(src/unnamed/part_001 lines 688-752): the first link under the element
whose truthy href matches a reel URL pattern wins with the full href as
`reelUrl`; otherwise the first pattern match inside the text content wins
with the matched text as `reelUrl`; otherwise a non-reel result with
method `url_pattern`. -/
def detectByUrlPattern (d : EDom) (m : Nat) : ReelResult :=
  match List.findSome? (fun link =>
      (jsOrS (d.hrefProp link) (d.attr link "href")).bind (fun href =>
        (firstUrlPatternMatch href).map (fun pr => (link, href, pr.2))))
      (d.queryAll m "a[href]") with
  | some (link, href, reelId) =>
    { isReel := true,
      confidence := calculateReelConfidence d "url_pattern" (some reelId) (some link),
      reelId := some reelId, detectionMethod := "url_pattern", reelUrl := some href,
      messageElement := m, linkElement := some link, visualElement := none }
  | none =>
    match firstUrlPatternMatch (d.text m) with
    | some (matched, reelId) =>
      { isReel := true,
        confidence := calculateReelConfidence d "url_pattern" (some reelId) none,
        reelId := some reelId, detectionMethod := "url_pattern", reelUrl := some matched,
        messageElement := m, linkElement := none, visualElement := none }
    | none =>
      { isReel := false, confidence := 0, reelId := none, detectionMethod := "url_pattern",
        reelUrl := none, messageElement := m, linkElement := none, visualElement := none }

/-- The visual indicator selectors of `detectByVisualIndicators`
(src/unnamed/part_001 lines 759-775). -/
def visualSelectors : List String :=
  ["[aria-label*=\"reel\"]", "[aria-label*=\"Reel\"]", "[data-testid*=\"reel\"]",
   "[data-testid*=\"Reel\"]", "[class*=\"reel\"]", "[class*=\"Reel\"]",
   "[role=\"button\"][aria-label*=\"reel\"]", "[role=\"button\"][aria-label*=\"Reel\"]"]

/-- `ReelDetector.detectByVisualIndicators(messageElement)`
(src/unnamed/part_001 lines 758-801): the first selector with a non-empty
match yields a reel result from its first element; `reelUrl` is built from
the extracted id when that id is truthy. -/
def detectByVisualIndicators (d : EDom) (m : Nat) : ReelResult :=
  match List.findSome? (fun sel =>
      match d.queryAll m sel with
      | [] => none
      | e :: _ => some e) visualSelectors with
  | some e =>
    let reelId := extractReelId d (some e)
    { isReel := true,
      confidence := calculateReelConfidence d "visual_indicators" reelId (some e),
      reelId := reelId, detectionMethod := "visual_indicators",
      reelUrl := (truthyS reelId).map (fun id => "https://instagram.com/reel/" ++ id),
      messageElement := m, linkElement := none, visualElement := some e }
  | none =>
    { isReel := false, confidence := 0, reelId := none,
      detectionMethod := "visual_indicators", reelUrl := none, messageElement := m,
      linkElement := none, visualElement := none }

/-- `ReelDetector.detectReels(messageElement)` (src/unnamed/part_001
lines 643-681): URL pattern result if it is a reel with confidence at or
above the 0.7 threshold, else the visual indicator result under the same
test, else the non-reel result with method `none`.  The catch branch is
unreachable in the model because the embedded DOM accessors are total. -/
def detectReels (d : EDom) (messageElement : Nat) : ReelResult :=
  let urlResult := detectByUrlPattern d messageElement
  if urlResult.isReel && urlResult.confidence ≥ 70 then urlResult
  else
    let visualResult := detectByVisualIndicators d messageElement
    if visualResult.isReel && visualResult.confidence ≥ 70 then visualResult
    else
      { isReel := false, confidence := 0, reelId := none, detectionMethod := "none",
        reelUrl := none, messageElement := messageElement, linkElement := none,
        visualElement := none }

/-- The argument of `detectReelsBatch(messageElements)`: an array of
elements, or any non-array value. -/
inductive BatchInput where
  | arr (xs : List Nat)
  | notArray
deriving DecidableEq, Repr

/-- `ReelDetector.detectReelsBatch(messageElements)`
(src/unnamed/part_001 lines 883-897, identical in src/unnamed/part_008
lines 713-727): an empty array for a non-array argument, otherwise
`messageElements.map(element => this.detectReels(element))`. -/
def detectReelsBatch (d : EDom) : BatchInput → List ReelResult
  | .notArray => []
  | .arr xs => xs.map (detectReels d)

end ReelDetector

namespace ScrollController

/-- The mutable fields of `ScrollController` touched by `stopScrolling`
(src/utils/scroll-controller.js lines 8-10): the `isScrolling` flag, the
`scrollInterval` handle and the `currentTarget` container. -/
structure State where
  isScrolling : Bool
  scrollInterval : Option Nat
  currentTarget : Option Nat
deriving DecidableEq, Repr

/-- `ScrollController.stopScrolling()` (src/utils/scroll-controller.js
lines 58-73): sets `isScrolling` to false, clears and nulls the interval
when present (clearing an interval has no effect on these fields), and
nulls the target; the try/catch wrapper has no throwing operation in the
body. -/
def stopScrolling (_s : State) : State :=
  { isScrolling := false, scrollInterval := none, currentTarget := none }

/-- Environment of one `scrollLoop` run (src/utils/scroll-controller.js
lines 80-123), indexed by the iteration counter `scrollCount`:
`stopped n` is the value of `!this.isScrolling` observed by the loop guard
before iteration `n` (an external `stopScrolling` can flip it between the
awaited steps), `dateReached n` is the result of
`hasReachedTargetDate(container, targetDate)` at iteration `n`, and
`scrollTopAfter n` is `container.scrollTop` observed after the
`performHumanScroll`/`attemptLoadMore` effects of iteration `n`. -/
structure LoopEnv where
  stopped : Nat → Bool
  dateReached : Nat → Bool
  scrollTopAfter : Nat → Int

/-- The while loop of `scrollLoop`: the guard polls `isScrolling` and
`scrollCount < maxScrolls`; a supplied target date that is reached breaks;
otherwise the body scrolls, runs the stuck check (its only effect,
`attemptLoadMore`, acts on the DOM and is part of the environment),
updates `lastScrollTop` and increments `scrollCount`.  The fuel is
`maxScrolls - scrollCount`, which the guard keeps positive; the value
returned is the final `scrollCount`, i.e. the number of iterations
performed. -/
def scrollLoopGo (env : LoopEnv) (hasTargetDate : Bool) :
    Nat → Nat → Int → Nat
  | 0, scrollCount, _ => scrollCount
  | fuel + 1, scrollCount, lastScrollTop =>
    if env.stopped scrollCount then scrollCount
    else if hasTargetDate && env.dateReached scrollCount then scrollCount
    else
      let currentScrollTop := env.scrollTopAfter scrollCount
      let _stuck := (currentScrollTop - lastScrollTop).natAbs < 10
      scrollLoopGo env hasTargetDate fuel (scrollCount + 1) currentScrollTop

/-- `ScrollController.scrollLoop(container, options)`
(src/utils/scroll-controller.js lines 80-123) reduced to its iteration
structure: returns how many iterations run before the loop exits, starting
from `scrollCount = 0` and the initial `container.scrollTop`. -/
def scrollLoopIterations (env : LoopEnv) (hasTargetDate : Bool) (maxScrolls : Nat)
    (initScrollTop : Int) : Nat :=
  scrollLoopGo env hasTargetDate maxScrolls 0 initScrollTop

end ScrollController

/-- A document on which every selector matches nothing (an empty document):
the part_001 `detectMessageContainers` reaches its `class` branch here and
throws. -/
def c1Dom : DOMDetector.Dom := { query := fun _ => .ok [], text := fun _ => "" }

/-- A document holding a single `<span>2h</span>` (element 7) matched only
by the `span, time, div` fallback selector; every structural selector of
the timestamp table matches nothing. -/
def c2Dom : DOMDetector.Dom :=
  { query := fun sel => if sel = "span, time, div" then .ok [7] else .ok [],
    text := fun _ => "2h" }

/-- A document whose querySelectorAll always throws a DOM exception,
driving the part_008 `detectMessageContainers` into its catch branch. -/
def c4BadDom : DOMDetector.Dom :=
  { query := fun _ => .thrown (.domException "boom"), text := fun _ => "" }

/-- A document where exactly the `instagram` selector of the
message-container table matches (element 3). -/
def igDom : DOMDetector.Dom :=
  { query := fun sel =>
      if sel = "div[data-testid=\"message-bubble\"], div[role=\"button\"][tabindex=\"0\"]"
      then .ok [3] else .ok [],
    text := fun _ => "" }

/-- A document where the cached selector `s-cached` matches element 4. -/
def c5Dom : DOMDetector.Dom :=
  { query := fun sel => if sel = "s-cached" then .ok [4] else .ok [], text := fun _ => "" }

/-- A selector cache holding an entry for the `widgets` key. -/
def c5Cache : SelectorCache := [("widgets", ⟨"s-cached", "m0"⟩)]

/-- The detection result of the instagram-selector success on `igDom`. -/
def c4wRes : DOMDetector.DetectionResult :=
  { elements := [3], confidence := 95, method := "instagram", cached := false,
    timestamp := 0 }

/-- The selector cache written by that success. -/
def c4wCache : SelectorCache :=
  [("messageContainers",
    ⟨"div[data-testid=\"message-bubble\"], div[role=\"button\"][tabindex=\"0\"]",
      "instagram"⟩)]

/-- An element oracle where every element is a bare, attribute-free,
zero-sized DIV with no parent, no links and no text. -/
def bareEDom : EDom :=
  { parent := fun _ => none, tagName := fun _ => "DIV", className := fun _ => "",
    attr := fun _ _ => none, elMatches := fun _ _ => false, queryAll := fun _ _ => [],
    closest := fun _ _ => none, dataset := fun _ _ => none, hrefProp := fun _ => none,
    srcProp := fun _ => none, text := fun _ => "", rectW := fun _ => 0, rectH := fun _ => 0,
    styleSet := fun _ _ => false, children := fun _ => [], body := 0 }

/-- A three-element chain 1 → 2 → 3 (= document.body) in which nothing
matches any container check, element 2 is a DIV and every bounding box is
zero-sized: the content.js upward walk exhausts and the DIV fallback
fires on the zero-sized parent. -/
def c7Dom : EDom :=
  { bareEDom with
    parent := fun e => if e = 1 then some 2 else if e = 2 then some 3 else none,
    tagName := fun e => if e = 2 then "DIV" else "SPAN",
    body := 3 }

/-- An element oracle where element 2 (the parent of element 1) matches
every container selector. -/
def c7wDom : EDom :=
  { bareEDom with
    parent := fun e => if e = 1 then some 2 else none,
    elMatches := fun e _ => e == 2 }

namespace DOMDetector

/-- Looking up the key just written returns the new entry. -/
theorem lookupCache_insert (c : SelectorCache) (k : String) (e : CacheEntry) :
    lookupCache (insertCache c k e) k = some e := by
  simp [lookupCache, insertCache, List.find?]

/-- Looking up an erased key misses. -/
theorem lookupCache_erase (c : SelectorCache) (k : String) :
    lookupCache (eraseCache c k) k = none := by
  induction c with
  | nil => rfl
  | cons p t ih =>
    simp only [eraseCache, List.filter_cons] at ih ⊢
    simp only [decide_not] at ih ⊢
    by_cases hp : p.1 = k
    · simpa [hp] using ih
    · simp only [hp, decide_False, Bool.not_false, if_true, lookupCache, List.find?_cons] at ih ⊢
      simp [hp, ih]

/-- Characterization of a successful `okChain` run: either some entry of the
chain succeeded (recording itself in the cache), or the run fell through to
the continuation on the unchanged cache. -/
theorem okChain_ok (doc : Dom) (cacheKey : String) (now : Nat) :
    ∀ (entries : List (Option String × String × Nat)) (c : SelectorCache)
      (ft : SelectorCache → JSResult (DetectionResult × SelectorCache))
      (r : DetectionResult) (cOut : SelectorCache),
    okChain doc cacheKey now entries c ft = .ok (r, cOut) →
    (∃ sel conf, (some sel, r.method, conf) ∈ entries ∧ ¬ sel = "" ∧
        doc.query sel = .ok r.elements ∧ ¬ r.elements = [] ∧
        r.confidence = conf ∧ r.cached = false ∧ r.timestamp = now ∧
        cOut = insertCache c cacheKey ⟨sel, r.method⟩) ∨
      ft c = .ok (r, cOut) := by
  intro entries
  induction entries with
  | nil => intro c ft r cOut h; exact Or.inr h
  | cons p rest ih =>
    obtain ⟨sel?, m, conf⟩ := p
    intro c ft r cOut h
    have liftMem : (∃ sel conf2, (some sel, r.method, conf2) ∈ rest ∧ ¬ sel = "" ∧
        doc.query sel = .ok r.elements ∧ ¬ r.elements = [] ∧
        r.confidence = conf2 ∧ r.cached = false ∧ r.timestamp = now ∧
        cOut = insertCache c cacheKey ⟨sel, r.method⟩) ∨ ft c = .ok (r, cOut) →
        (∃ sel conf2, (some sel, r.method, conf2) ∈ (sel?, m, conf) :: rest ∧ ¬ sel = "" ∧
          doc.query sel = .ok r.elements ∧ ¬ r.elements = [] ∧
          r.confidence = conf2 ∧ r.cached = false ∧ r.timestamp = now ∧
          cOut = insertCache c cacheKey ⟨sel, r.method⟩) ∨ ft c = .ok (r, cOut) := by
      rintro (⟨s, c2, hmem, hrest⟩ | h2)
      · exact Or.inl ⟨s, c2, List.mem_cons_of_mem _ hmem, hrest⟩
      · exact Or.inr h2
    cases hts : truthyS sel? with
    | none =>
      simp only [okChain, hts] at h
      exact liftMem (ih c ft r cOut h)
    | some sel =>
      simp only [okChain, hts] at h
      cases hq : doc.query sel with
      | thrown e => rw [hq] at h; cases h
      | ok els =>
        rw [hq] at h
        by_cases he : els.isEmpty
        · simp only [he, if_true] at h
          exact liftMem (ih c ft r cOut h)
        · simp only [he, if_false] at h
          cases h
          have hsel : sel? = some sel ∧ ¬ sel = "" := by
            cases sel? with
            | none => simp [truthyS] at hts
            | some s0 =>
              by_cases h0 : s0 = ""
              · simp [truthyS, h0] at hts
              · simp only [truthyS, h0, if_false] at hts
                injection hts with hts
                subst hts
                exact ⟨rfl, h0⟩
          refine Or.inl ⟨sel, conf, ?_, hsel.2, hq, ?_, rfl, rfl, rfl, rfl⟩
          · rw [← hsel.1]; exact List.mem_cons_self _ _
          · simpa [List.isEmpty_iff] using he

/-- A successful `errChain` run must have skipped every branch: every
selector key in the list was absent or empty, and the continuation value
came through unchanged. -/
theorem errChain_ok (doc : Dom) :
    ∀ (sels : List (Option String)) (ft : JSResult (DetectionResult × SelectorCache))
      (x : DetectionResult × SelectorCache),
    errChain doc sels ft = .ok x → ft = .ok x ∧ ∀ s ∈ sels, truthyS s = none := by
  intro sels
  induction sels with
  | nil => intro ft x h; exact ⟨h, by simp⟩
  | cons s rest ih =>
    intro ft x h
    cases hts : truthyS s with
    | none =>
      simp only [errChain, hts] at h
      obtain ⟨h1, h2⟩ := ih ft x h
      refine ⟨h1, ?_⟩
      intro s2 hs2
      rcases List.mem_cons.mp hs2 with h3 | h3
      · rw [h3]; exact hts
      · exact h2 s2 h3
    | some sel =>
      simp only [errChain, hts] at h
      cases hq : doc.query sel with
      | thrown e => rw [hq] at h; cases h
      | ok els => rw [hq] at h; cases h

/-- Characterization of a successful `detectSearch` run: either one of the
four declared strategy branches succeeded, or everything fell through to
the empty result, which requires the class, structure and fallback keys to
be absent or empty (a present key in those branches throws). -/
theorem detectSearch_ok (doc : Dom) (s : Selectors) (cacheKey : String)
    (c : SelectorCache) (now : Nat) (r : DetectionResult) (cOut : SelectorCache) :
    detectSearch doc s cacheKey c now = .ok (r, cOut) →
    (∃ sel, ¬ sel = "" ∧ doc.query sel = .ok r.elements ∧ ¬ r.elements = [] ∧
        r.cached = false ∧ ¬ r.method = "none" ∧
        cOut = insertCache c cacheKey ⟨sel, r.method⟩) ∨
      (r = emptyResult now ∧ cOut = c ∧ truthyS s.clsSel = none ∧
        truthyS s.structSel = none ∧ truthyS s.fallback = none) := by
  intro h
  rcases okChain_ok doc cacheKey now _ c _ r cOut h with
    ⟨sel, conf, hmem, hsel, hq, hne, _, hcached, _, hout⟩ | hft
  · refine Or.inl ⟨sel, hsel, hq, hne, hcached, ?_, hout⟩
    have : r.method = "instagram" ∨ r.method = "testId" ∨ r.method = "ariaLabel" ∨
        r.method = "attribute" := by
      simp only [List.mem_cons, List.mem_singleton, Prod.mk.injEq] at hmem
      rcases hmem with ⟨_, h2, _⟩ | ⟨_, h2, _⟩ | ⟨_, h2, _⟩ | ⟨_, h2, _⟩ | h2
      · exact Or.inl h2
      · exact Or.inr (Or.inl h2)
      · exact Or.inr (Or.inr (Or.inl h2))
      · exact Or.inr (Or.inr (Or.inr h2))
      · cases h2
    rcases this with h2 | h2 | h2 | h2 <;> rw [h2] <;> decide
  · obtain ⟨h1, h2⟩ := errChain_ok doc _ _ _ hft
    injection h1 with h1
    injection h1 with hr hc
    exact Or.inr ⟨hr.symm, hc.symm, h2 s.clsSel (by simp), h2 s.structSel (by simp),
      h2 s.fallback (by simp)⟩

/-- Characterization of a successful `detect` run: a cache hit, a strategy
success, or the empty result. -/
theorem detect_ok (doc : Dom) (s : Selectors) (cacheKey : String)
    (c : SelectorCache) (now : Nat) (r : DetectionResult) (cOut : SelectorCache) :
    detect doc s cacheKey c now = .ok (r, cOut) →
    (∃ e, lookupCache c cacheKey = some e ∧ doc.query e.selector = .ok r.elements ∧
        ¬ r.elements = [] ∧ r.cached = true ∧ r.method = e.method ∧
        r.confidence = 100 ∧ r.timestamp = now ∧ cOut = c) ∨
    (∃ sel, ¬ sel = "" ∧ doc.query sel = .ok r.elements ∧ ¬ r.elements = [] ∧
        r.cached = false ∧ ¬ r.method = "none" ∧
        cOut = insertCache c cacheKey ⟨sel, r.method⟩) ∨
      (r = emptyResult now ∧ cOut = c ∧ truthyS s.clsSel = none ∧
        truthyS s.structSel = none ∧ truthyS s.fallback = none) := by
  intro h
  cases hl : lookupCache c cacheKey with
  | none =>
    simp only [detect, hl] at h
    rcases detectSearch_ok doc s cacheKey c now r cOut h with h2 | h2
    · exact Or.inr (Or.inl h2)
    · exact Or.inr (Or.inr h2)
  | some entry =>
    simp only [detect, hl] at h
    cases hq : doc.query entry.selector with
    | thrown e => rw [hq] at h; cases h
    | ok els =>
      rw [hq] at h
      by_cases he : els.isEmpty
      · simp only [he, if_true] at h
        rcases detectSearch_ok doc s cacheKey c now r cOut h with h2 | h2
        · exact Or.inr (Or.inl h2)
        · exact Or.inr (Or.inr h2)
      · simp only [he, if_false] at h
        injection h with h
        injection h with hr hc
        subst hc
        have hne : ¬ els = [] := by
          intro h0
          exact he (by simp [h0])
        refine Or.inl ⟨entry, rfl, ?_, ?_, ?_, ?_, ?_, ?_, rfl⟩
        · rw [← hr]; exact hq
        · rw [← hr]; exact hne
        · rw [← hr]
        · rw [← hr]
        · rw [← hr]
        · rw [← hr]

/-- The detection-result component of a `JSResult` holding a result/cache
pair (used to state cache independence of the search outcome). -/
def resultPart : JSResult (DetectionResult × SelectorCache) → JSResult DetectionResult
  | .ok (r, _) => .ok r
  | .thrown e => .thrown e

/-- The detection result of `errChain` does not depend on the cache inside
the continuation value. -/
theorem errChain_resultPart (doc : Dom) :
    ∀ (sels : List (Option String)) (ft1 ft2 : JSResult (DetectionResult × SelectorCache)),
    resultPart ft1 = resultPart ft2 →
    resultPart (errChain doc sels ft1) = resultPart (errChain doc sels ft2) := by
  intro sels
  induction sels with
  | nil => intro ft1 ft2 h; exact h
  | cons s rest ih =>
    intro ft1 ft2 h
    cases hts : truthyS s with
    | none => simp only [errChain, hts]; exact ih ft1 ft2 h
    | some sel =>
      simp only [errChain, hts]

/-- The detection result of `okChain` does not depend on the starting
cache. -/
theorem okChain_resultPart (doc : Dom) (cacheKey : String) (now : Nat) :
    ∀ (entries : List (Option String × String × Nat)) (c1 c2 : SelectorCache)
      (ft1 ft2 : SelectorCache → JSResult (DetectionResult × SelectorCache)),
    (∀ d1 d2, resultPart (ft1 d1) = resultPart (ft2 d2)) →
    resultPart (okChain doc cacheKey now entries c1 ft1) =
      resultPart (okChain doc cacheKey now entries c2 ft2) := by
  intro entries
  induction entries with
  | nil => intro c1 c2 ft1 ft2 h; exact h c1 c2
  | cons p rest ih =>
    obtain ⟨sel?, m, conf⟩ := p
    intro c1 c2 ft1 ft2 h
    cases hts : truthyS sel? with
    | none => simp only [okChain, hts]; exact ih c1 c2 ft1 ft2 h
    | some sel =>
      simp only [okChain, hts]
      cases doc.query sel with
      | thrown e => rfl
      | ok els =>
        by_cases he : els.isEmpty
        · simp only [he, if_true]; exact ih c1 c2 ft1 ft2 h
        · simp [he, resultPart]

/-- The detection result (though not the output cache) of the full
strategy search is independent of the cache it starts from. -/
theorem detectSearch_resultPart (doc : Dom) (s : Selectors) (cacheKey : String)
    (c1 c2 : SelectorCache) (now : Nat) :
    resultPart (detectSearch doc s cacheKey c1 now) =
      resultPart (detectSearch doc s cacheKey c2 now) := by
  refine okChain_resultPart doc cacheKey now _ c1 c2 _ _ ?_
  intro d1 d2
  exact errChain_resultPart doc _ _ _ rfl

end DOMDetector

namespace DOMDetector8

/-- The selector loop of the part_008 `detectMessageContainers` preserves
the accumulator invariant tying empty elements to zero confidence and
method `none`, and non-empty elements to positive confidence and a
non-`none` method. -/
theorem mcGo_inv (doc : DOMDetector.Dom) :
    ∀ (sels : List String) (i : Nat) (els : List Nat) (conf : Nat) (meth : String)
      (out : List Nat × Nat × String),
    mcGo doc i sels (els, conf, meth) = .ok out →
    ((els = [] → conf = 0 ∧ meth = "none") ∧ (¬ els = [] → ¬ conf = 0 ∧ ¬ meth = "none")) →
    ((out.1 = [] → out.2.1 = 0 ∧ out.2.2 = "none") ∧
      (¬ out.1 = [] → ¬ out.2.1 = 0 ∧ ¬ out.2.2 = "none")) := by
  intro sels
  induction sels with
  | nil =>
    intro i els conf meth out h hinv
    simp only [mcGo] at h
    injection h with h
    rw [← h]
    exact hinv
  | cons sel rest ih =>
    intro i els conf meth out h hinv
    simp only [mcGo] at h
    cases hq : doc.query sel with
    | thrown e => rw [hq] at h; cases h
    | ok found =>
      rw [hq] at h
      by_cases hf : found.length > 0
      · simp only [hf, if_true] at h
        have hfoundne : ¬ found = [] := by
          intro h0; rw [h0] at hf; simp at hf
        refine ih (i + 1) _ _ _ out h ⟨?_, ?_⟩
        · intro h0
          exact absurd h0 (by simp [hfoundne])
        · intro _
          constructor
          · have hcap1 : (1 : Nat) ≤ (if i < 4 then 95 else if i < 6 then 85 else 70) := by
              split
              · omega
              · split <;> omega
            have hbase1 : (1 : Nat) ≤
                (if i < 4 then 70 else if i < 6 then 60 else 40) + 2 * found.length := by
              split
              · omega
              · split <;> omega
            have hmin : 1 ≤ Nat.min (if i < 4 then 95 else if i < 6 then 85 else 70)
                ((if i < 4 then 70 else if i < 6 then 60 else 40) + 2 * found.length) :=
              Nat.le_min.mpr ⟨hcap1, hbase1⟩
            have hle := le_trans hmin (Nat.le_max_right conf _)
            exact Nat.pos_iff_ne_zero.mp hle
          · by_cases h4 : i < 4
            · simp only [h4, if_true]; decide
            · by_cases h6 : i < 6 <;> simp only [h4, h6, if_true, if_false] <;> decide
      · simp only [hf, if_false] at h
        exact ih (i + 1) _ _ _ out h hinv

/-- Invariant of the part_008 `detectMessageContainers` result: empty
elements force confidence 0 with method `none` (normal path) or `error`
(catch path), and method `none` forces empty elements and confidence 0. -/
theorem detectMessageContainers_inv (doc : DOMDetector.Dom) :
    ((detectMessageContainers doc).elements = [] →
      (detectMessageContainers doc).confidence = 0 ∧
      ((detectMessageContainers doc).method = "none" ∨
        (detectMessageContainers doc).method = "error")) ∧
    ((detectMessageContainers doc).method = "none" →
      (detectMessageContainers doc).elements = [] ∧
      (detectMessageContainers doc).confidence = 0) := by
  cases hgo : mcGo doc 0 mcSelectors ([], 0, "none") with
  | thrown e =>
    have hres : detectMessageContainers doc =
        { elements := [], confidence := 0, method := "error", selector := none,
          errMsg := some e.message } := by
      simp [detectMessageContainers, hgo]
    rw [hres]
    exact ⟨fun _ => ⟨rfl, Or.inr rfl⟩,
      fun h0 => absurd (show ("error" : String) = "none" from h0) (by decide)⟩
  | ok out =>
    obtain ⟨els, conf, meth⟩ := out
    have hinv := mcGo_inv doc mcSelectors 0 [] 0 "none" (els, conf, meth) hgo
      ⟨fun _ => ⟨rfl, rfl⟩, fun h0 => absurd rfl h0⟩
    simp only [detectMessageContainers, hgo]
    by_cases hlen : els.length > 0
    · have hne : ¬ els = [] := by
        intro h0; rw [h0] at hlen; simp at hlen
      obtain ⟨hc, hm⟩ := hinv.2 hne
      constructor
      · intro h0; exact absurd h0 hne
      · intro h0; exact absurd h0 hm
    · have he : els = [] := by
        cases els with
        | nil => rfl
        | cons a t => exact absurd (by simp) hlen
      obtain ⟨hc, hm⟩ := hinv.1 he
      subst he; subst hc; subst hm
      simp

end DOMDetector8

/-- Every element is an ancestor-or-self of itself. -/
theorem isAncestorOrSelf_refl (d : EDom) (e : Nat) : IsAncestorOrSelf d e e := ⟨0, rfl⟩

/-- Ancestor-or-self extends through one parent link. -/
theorem isAncestorOrSelf_step (d : EDom) (e p x : Nat) (hp : d.parent e = some p)
    (h : IsAncestorOrSelf d p x) : IsAncestorOrSelf d e x := by
  obtain ⟨k, hk⟩ := h
  exact ⟨k + 1, by simp [iterParent, hp, hk]⟩

/-- Whatever the content.js walk returns lies on the parent chain of the
element it starts from. -/
theorem contentScriptFindWalk_ancestor (d : EDom) :
    ∀ (fuel cur x : Nat), ContentScript.findWalk d fuel cur = some x →
      IsAncestorOrSelf d cur x := by
  intro fuel
  induction fuel with
  | zero => intro cur x h; cases h
  | succ f ih =>
    intro cur x h
    simp only [ContentScript.findWalk] at h
    by_cases hb : cur = d.body
    · rw [if_pos hb] at h; cases h
    · rw [if_neg hb] at h
      by_cases hm : (ContentScript.containerSelectors.any fun sel => d.elMatches cur sel) = true
      · rw [if_pos hm] at h
        injection h with h; subst h; exact isAncestorOrSelf_refl d cur
      · rw [if_neg hm] at h
        by_cases ha : ((d.attr cur "data-testid").isSome || (d.attr cur "role").isSome ||
            strContains (d.className cur) "message" ||
            strContains (d.className cur) "conversation" ||
            strContains (d.className cur) "chat") = true
        · rw [if_pos ha] at h
          injection h with h; subst h; exact isAncestorOrSelf_refl d cur
        · rw [if_neg ha] at h
          cases hp : d.parent cur with
          | some p =>
            rw [hp] at h
            exact isAncestorOrSelf_step d cur p x hp (ih p x h)
          | none => rw [hp] at h; cases h

/-- Whatever the part_004 walk returns lies on the parent chain of the
element it starts from. -/
theorem part004FindWalk_ancestor (d : EDom) :
    ∀ (fuel cur x : Nat) (first : Bool), Part004.findWalk d fuel cur first = some x →
      IsAncestorOrSelf d cur x := by
  intro fuel
  induction fuel with
  | zero => intro cur x first h; cases h
  | succ f ih =>
    intro cur x first h
    simp only [Part004.findWalk] at h
    by_cases hb : cur = d.body
    · rw [if_pos hb] at h; cases h
    · rw [if_neg hb] at h
      by_cases hc : (!first && Part004.containerCheck d cur) = true
      · rw [if_pos hc] at h
        injection h with h; subst h; exact isAncestorOrSelf_refl d cur
      · rw [if_neg hc] at h
        cases hp : d.parent cur with
        | some p =>
          rw [hp] at h
          exact isAncestorOrSelf_step d cur p x hp (ih p x false h)
        | none => rw [hp] at h; cases h

/-- Whatever the part_004 fallback loop returns lies on the parent chain of
the element it starts from. -/
theorem Part004.fallbackWalk_ancestor (d : EDom) :
    ∀ (fuel : Nat) (start : Option Nat) (x : Nat), Part004.fallbackWalk d fuel start = some x →
      ∃ e, start = some e ∧ IsAncestorOrSelf d e x := by
  intro fuel
  induction fuel with
  | zero => intro start x h; cases start <;> cases h
  | succ f ih =>
    intro start x h
    cases start with
    | none => cases h
    | some e =>
      simp only [Part004.fallbackWalk] at h
      by_cases hb : e = d.body
      · rw [if_pos hb] at h; cases h
      · rw [if_neg hb] at h
        by_cases hs : (decide (d.rectW e > 100) && decide (d.rectH e > 40)) = true
        · rw [if_pos hs] at h
          injection h with h; subst h
          exact ⟨e, rfl, isAncestorOrSelf_refl d e⟩
        · rw [if_neg hs] at h
          obtain ⟨p, hp, hanc⟩ := ih (d.parent e) x h
          exact ⟨e, rfl, isAncestorOrSelf_step d e p x hp hanc⟩

namespace ScrollController

/-- The loop body increments `scrollCount` once per iteration and the
guard stops at `maxScrolls`, so the final count is bounded by the starting
count plus the remaining fuel. -/
theorem scrollLoopGo_le (env : LoopEnv) (hasTargetDate : Bool) :
    ∀ (fuel scrollCount : Nat) (lastScrollTop : Int),
      scrollLoopGo env hasTargetDate fuel scrollCount lastScrollTop ≤ scrollCount + fuel := by
  intro fuel
  induction fuel with
  | zero => intro scrollCount lastScrollTop; simp [scrollLoopGo]
  | succ f ih =>
    intro scrollCount lastScrollTop
    simp only [scrollLoopGo]
    split_ifs
    · omega
    · omega
    · have := ih (scrollCount + 1) (env.scrollTopAfter scrollCount)
      omega

end ScrollController

/-- Claim C1: the spec says a classification call never throws and always
returns a DetectionResult.  The code violates this: on a document where the
cache is empty and the instagram/attribute selectors match nothing, the
part_001 `detect` reaches its `class` branch, whose undeclared-variable
assignment throws a ReferenceError in the ES module strict mode; the same
happens to `detectTimestampElements` through its `class` branch.  This
theorem evaluates both entry points at such a document. -/
theorem claim_C1_detect_throws_reference_error :
    DOMDetector.detectMessageContainers c1Dom [] 0 = .thrown .referenceError ∧
    DOMDetector.detectTimestampElements c1Dom [] 0 = .thrown .referenceError := by
  exact ⟨by decide, by decide⟩

/-- Claim C2: the spec says a document whose only time-like element is a
span with text `2h`, matched only via the fallback selector, yields
confidence exactly 0.6 with method `text-pattern`.  Evaluating the code on
exactly that document instead throws the strict-mode ReferenceError at the
`class` branch, long before the text-pattern fallback is consulted (and
even without that slip the `fallback` strategy, confidence 0.3, would
short-circuit the text-pattern path whenever the fallback selector matches
anything). -/
theorem claim_C2_text_pattern_scenario_throws :
    DOMDetector.detectTimestampElements c2Dom [] 0 = .thrown .referenceError := by
  decide

/-- Claim C4 counterexample: on a document whose DOM access throws, the
part_008 `detectMessageContainers` returns the empty-elements result with
method `error`, not `none`, contradicting the claim that empty elements
force method `none` on the exception path as well. -/
theorem claim_C4_counterexample :
    (DOMDetector8.detectMessageContainers c4BadDom).elements = [] ∧
    (DOMDetector8.detectMessageContainers c4BadDom).confidence = 0 ∧
    ¬ (DOMDetector8.detectMessageContainers c4BadDom).method = "none" ∧
    (DOMDetector8.detectMessageContainers c4BadDom).method = "error" := by
  refine ⟨by decide, by decide, by decide, by decide⟩

/-- Claim C6 counterexample: `ReelDetector.extractReelId` is not total on
elements.  On a bare element with no data attributes, no href, no
ancestor reel link and no descendant reel links it returns null, refuting
the claim that reel-id extraction never returns null for a non-null
element. -/
theorem claim_C6_counterexample :
    ReelDetector.extractReelId bareEDom (some 5) = none := by decide

/-- Claim C6 (amended): the standalone part_004 `extractReelId` is total on
elements: for every element input it returns some id string, falling
through to the positional `msg_` id, the caught-error `error_` id or the
synthetic `unknown_` id when no href, video or image source yields one.
(The `ReelDetector.extractReelId` method, by contrast, returns null when
nothing matches, per the counterexample.) -/
theorem claim_C6_amended_extractReelId_total :
    ∀ (d : EDom) (e now : Nat) (rand : String),
      (Part004.extractReelId d (.elem e) now rand).isSome = true := by
  intro d e now rand
  simp only [Part004.extractReelId]
  cases h1 : (jsOrS (d.hrefProp e) (d.attr e "href")).bind Part004.extractReelIdFromUrl with
  | some id => simp
  | none =>
    cases h2 : ((if d.tagName e = "VIDEO" then some e else EDom.queryOne d e "video").bind
        (fun v => (jsOrS (d.srcProp v) (d.attr v "src")).bind Part004.extractReelIdFromUrl)) with
    | some id => simp
    | none =>
      cases h3 : ((if d.tagName e = "IMG" then some e else EDom.queryOne d e "img").bind
          (fun im => (jsOrS (d.srcProp im) (d.attr im "src")).bind Part004.extractReelIdFromUrl)) with
      | some id => simp
      | none =>
        cases h4 : Part004.findMessageContainer d e with
        | some mc => cases h5 : d.parent mc <;> simp [h5]
        | none => simp

/-- Claim C8: the scroll loop always terminates within `maxScrolls`
iterations, for every environment (hence for every container, every target
date, including one the date check never reaches, and every external
stop/stuck behaviour). -/
theorem claim_C8_scroll_loop_terminates :
    ∀ (env : ScrollController.LoopEnv) (hasTargetDate : Bool) (maxScrolls : Nat)
      (initScrollTop : Int),
      ScrollController.scrollLoopIterations env hasTargetDate maxScrolls initScrollTop ≤
        maxScrolls := by
  intro env h maxScrolls init
  simpa using ScrollController.scrollLoopGo_le env h maxScrolls 0 init

/-- Claim C9: `detectReelsBatch` is an order-preserving map: on an array
input the output has the same length and its i-th entry is `detectReels`
of the i-th input element; a non-array input yields the empty array. -/
theorem claim_C9_batch_is_map :
    ∀ (d : EDom) (xs : List Nat) (i : Nat),
      (ReelDetector.detectReelsBatch d (.arr xs)).length = xs.length ∧
      (ReelDetector.detectReelsBatch d (.arr xs)).get? i =
        (xs.get? i).map (ReelDetector.detectReels d) ∧
      ReelDetector.detectReelsBatch d .notArray = [] := by
  intro d xs i
  refine ⟨?_, ?_, rfl⟩
  · simp [ReelDetector.detectReelsBatch]
  · simp [ReelDetector.detectReelsBatch, List.getElem?_map]

/-- Claim C10: `stopScrolling` unconditionally resets the session fields
and is idempotent. -/
theorem claim_C10_stopScrolling_idempotent :
    ∀ s : ScrollController.State,
      (ScrollController.stopScrolling s).isScrolling = false ∧
      (ScrollController.stopScrolling s).scrollInterval = none ∧
      (ScrollController.stopScrolling s).currentTarget = none ∧
      ScrollController.stopScrolling (ScrollController.stopScrolling s) =
        ScrollController.stopScrolling s :=
  fun _ => ⟨rfl, rfl, rfl, rfl⟩

/-- Claim C5: with a cache entry present, a cached selector that still
matches returns immediately with exactly those elements, confidence 1.0,
`cached = true` and the cached method, leaving the cache untouched; a
cached selector that matches zero elements raises no error and the run
produces the same detection result as a run on a cache without the entry
(the full strategy search proceeds as if no cache entry existed). -/
theorem claim_C5_cache_hit_and_stale :
    ∀ (doc : DOMDetector.Dom) (s : DOMDetector.Selectors) (cacheKey : String)
      (c : SelectorCache) (now : Nat) (entry : CacheEntry),
    lookupCache c cacheKey = some entry →
    ((∀ els, doc.query entry.selector = .ok els → ¬ els = [] →
        DOMDetector.detect doc s cacheKey c now =
          .ok ({ elements := els, confidence := 100, method := entry.method,
                 cached := true, timestamp := now }, c)) ∧
     (doc.query entry.selector = .ok [] →
        DOMDetector.resultPart (DOMDetector.detect doc s cacheKey c now) =
          DOMDetector.resultPart
            (DOMDetector.detect doc s cacheKey (eraseCache c cacheKey) now))) := by
  intro doc s cacheKey c now entry hl
  constructor
  · intro els hq hne
    simp only [DOMDetector.detect, hl, hq]
    rw [if_neg]
    intro hh
    exact hne (by simpa using hh)
  · intro hq
    simp only [DOMDetector.detect, hl, hq, DOMDetector.lookupCache_erase,
      List.isEmpty_nil, if_true]
    exact DOMDetector.detectSearch_resultPart doc s cacheKey c (eraseCache c cacheKey) now

/-- Witness for claim C5: concrete cache hit on the `widgets` key. -/
theorem claim_C5_witness :
    DOMDetector.detect c5Dom DOMDetector.loadingStateSelectors "widgets" c5Cache 0 =
      .ok ({ elements := [4], confidence := 100, method := "m0",
             cached := true, timestamp := 0 }, c5Cache) :=
  (claim_C5_cache_hit_and_stale c5Dom DOMDetector.loadingStateSelectors "widgets" c5Cache 0
    ⟨"s-cached", "m0"⟩ (by decide)).1 [4] (by decide) (by decide)

/-- Claim C7 counterexample: on the three-element chain of `c7Dom` the
content.js upward walk finds nothing, every bounding box is zero-sized,
and `findMessageContainer` still returns the parent, merely because its
tag is DIV — there is no size qualification, refuting the claim that the
fallback fires only for a generic block container of sufficient size. -/
theorem claim_C7_counterexample :
    ContentScript.findWalk c7Dom 10 1 = none ∧
    ContentScript.findMessageContainer c7Dom 1 = some 2 ∧
    c7Dom.rectW 2 = 0 ∧ c7Dom.rectH 2 = 0 := by
  exact ⟨by decide, by decide, by decide, by decide⟩

/-- Claim C7 (amended): both `findMessageContainer` variants return null or
an ancestor-or-self of the input, reached by walking parent links (in an
acyclic DOM this excludes every strict descendant); the content.js
fallback returns the immediate parent whenever its tag is DIV, with no
size requirement, and the part_004 fallback searches the first three
ancestors for one of sufficient size. -/
theorem claim_C7_amended_ancestor_or_self :
    ∀ (d : EDom) (e : Nat),
      (∀ x, ContentScript.findMessageContainer d e = some x → IsAncestorOrSelf d e x) ∧
      (∀ x, Part004.findMessageContainer d e = some x → IsAncestorOrSelf d e x) := by
  intro d e
  constructor
  · intro x h
    simp only [ContentScript.findMessageContainer] at h
    cases hw : ContentScript.findWalk d 10 e with
    | some cnt =>
      simp only [hw] at h
      injection h with h
      exact h ▸ contentScriptFindWalk_ancestor d 10 e cnt hw
    | none =>
      simp only [hw] at h
      cases hp : d.parent e with
      | some p =>
        simp only [hp] at h
        by_cases ht : d.tagName p = "DIV"
        · rw [if_pos ht] at h
          injection h with h
          exact h ▸ isAncestorOrSelf_step d e p p hp (isAncestorOrSelf_refl d p)
        · rw [if_neg ht] at h
          cases h
      | none => simp only [hp] at h; cases h
  · intro x h
    simp only [Part004.findMessageContainer] at h
    cases hp : d.parent e with
    | none => simp only [hp] at h; cases h
    | some p =>
      simp only [hp] at h
      cases hw : Part004.findWalk d 8 e true with
      | some cnt =>
        simp only [hw] at h
        injection h with h
        exact h ▸ part004FindWalk_ancestor d 8 e cnt true hw
      | none =>
        simp only [hw] at h
        obtain ⟨e2, he2, hanc⟩ := Part004.fallbackWalk_ancestor d 3 (some p) x h
        injection he2 with he2
        exact isAncestorOrSelf_step d e e2 x (he2 ▸ hp) hanc

/-- Witness for claim C7: on `c7wDom` the content.js resolver returns
element 2, an ancestor of the input element 1. -/
theorem claim_C7_witness : IsAncestorOrSelf c7wDom 1 2 :=
  (claim_C7_amended_ancestor_or_self c7wDom 1).1 2 (by decide)

/-- Claim C4 (amended): every DetectionResult returned (as a value, not a
thrown exception) by the part_001 `detect` and `detectWithTextPattern`
satisfies the invariant chain — empty elements force confidence 0 and
method `none`, and method `none` forces empty elements and confidence 0 —
provided the cache holds no entry recorded under method `none` (the code
only ever records real method names).  For the part_008
`detectMessageContainers` the same holds on the normal path, while the
exception path returns method `error` (not `none`) with empty elements and
confidence 0. -/
theorem claim_C4_amended_invariant :
    (∀ (doc : DOMDetector.Dom) (s : DOMDetector.Selectors) (cacheKey : String)
        (c : SelectorCache) (now : Nat) (r : DOMDetector.DetectionResult)
        (cOut : SelectorCache),
      (∀ e, lookupCache c cacheKey = some e → ¬ e.method = "none") →
      DOMDetector.detect doc s cacheKey c now = .ok (r, cOut) →
      ((r.elements = [] → r.confidence = 0 ∧ r.method = "none") ∧
       (r.method = "none" → r.elements = [] ∧ r.confidence = 0))) ∧
    (∀ (doc : DOMDetector.Dom) (s : DOMDetector.Selectors) (cacheKey : String)
        (pat : String → Bool) (c : SelectorCache) (now : Nat)
        (r : DOMDetector.DetectionResult) (cOut : SelectorCache),
      (∀ e, lookupCache c cacheKey = some e → ¬ e.method = "none") →
      DOMDetector.detectWithTextPattern doc s cacheKey pat c now = .ok (r, cOut) →
      ((r.elements = [] → r.confidence = 0 ∧ r.method = "none") ∧
       (r.method = "none" → r.elements = [] ∧ r.confidence = 0))) ∧
    (∀ doc : DOMDetector.Dom,
      ((DOMDetector8.detectMessageContainers doc).elements = [] →
        (DOMDetector8.detectMessageContainers doc).confidence = 0 ∧
        ((DOMDetector8.detectMessageContainers doc).method = "none" ∨
          (DOMDetector8.detectMessageContainers doc).method = "error")) ∧
      ((DOMDetector8.detectMessageContainers doc).method = "none" →
        (DOMDetector8.detectMessageContainers doc).elements = [] ∧
        (DOMDetector8.detectMessageContainers doc).confidence = 0)) := by
  have hdet : ∀ (doc : DOMDetector.Dom) (s : DOMDetector.Selectors) (cacheKey : String)
      (c : SelectorCache) (now : Nat) (r : DOMDetector.DetectionResult)
      (cOut : SelectorCache),
      (∀ e, lookupCache c cacheKey = some e → ¬ e.method = "none") →
      DOMDetector.detect doc s cacheKey c now = .ok (r, cOut) →
      ((r.elements = [] → r.confidence = 0 ∧ r.method = "none") ∧
       (r.method = "none" → r.elements = [] ∧ r.confidence = 0)) := by
    intro doc s cacheKey c now r cOut hwf h
    rcases DOMDetector.detect_ok doc s cacheKey c now r cOut h with
      ⟨entry, hl, _, hne, _, hm, _, _, _⟩ | ⟨sel, _, _, hne, _, hm, _⟩ | ⟨hr, _, _⟩
    · exact ⟨fun h0 => absurd h0 hne, fun h0 => absurd (hm ▸ h0) (hwf entry hl)⟩
    · exact ⟨fun h0 => absurd h0 hne, fun h0 => absurd h0 hm⟩
    · subst hr
      exact ⟨fun _ => ⟨rfl, rfl⟩, fun _ => ⟨rfl, rfl⟩⟩
  refine ⟨hdet, ?_, fun doc => DOMDetector8.detectMessageContainers_inv doc⟩
  intro doc s cacheKey pat c now r cOut hwf h
  cases hd : DOMDetector.detect doc s cacheKey c now with
  | thrown e =>
    simp only [DOMDetector.detectWithTextPattern, hd] at h
    cases h
  | ok pr =>
    obtain ⟨std, c1⟩ := pr
    simp only [DOMDetector.detectWithTextPattern, hd] at h
    by_cases hlen : std.elements.length > 0
    · rw [if_pos hlen] at h
      injection h with h
      injection h with hr hc
      exact hr ▸ hdet doc s cacheKey c now std c1 hwf hd
    · rw [if_neg hlen] at h
      cases hq : doc.query (DOMDetector.fallbackOrDefault s.fallback) with
      | thrown e => simp only [hq] at h; cases h
      | ok allElements =>
        simp only [hq] at h
        split at h
        · rename_i ht
          injection h with h
          injection h with hr hc
          subst hr
          refine ⟨fun h0 => absurd h0 (List.length_pos.mp ht), fun h0 => ?_⟩
          exact absurd (show ("text-pattern" : String) = "none" from h0) (by decide)
        · injection h with h
          injection h with hr hc
          subst hr
          exact ⟨fun _ => ⟨rfl, rfl⟩, fun _ => ⟨rfl, rfl⟩⟩

/-- Witness for claim C4: the invariant instantiated at the concrete
instagram-selector success on `igDom`. -/
theorem claim_C4_witness :
    (c4wRes.elements = [] → c4wRes.confidence = 0 ∧ c4wRes.method = "none") ∧
    (c4wRes.method = "none" → c4wRes.elements = [] ∧ c4wRes.confidence = 0) :=
  claim_C4_amended_invariant.1 igDom DOMDetector.messageContainerSelectors
    "messageContainers" [] 0 c4wRes c4wCache
    (fun e h => Option.noConfusion h) (by decide)

namespace DOMDetector

/-- After a first successful `detect` on an empty cache (for a table whose
`class` key is truthy, as all three entity tables are), the first result
came from a strategy branch, its method is not `none`, its elements are
non-empty, and a second call on the updated cache is a cache hit returning
the same elements with confidence 1 and `cached = true`. -/
theorem detect_second_call (doc : Dom) (s : Selectors) (cacheKey : String)
    (now now2 : Nat) (r1 : DetectionResult) (c1 : SelectorCache)
    (hcls : ¬ truthyS s.clsSel = none)
    (h1 : detect doc s cacheKey [] now = .ok (r1, c1)) :
    ¬ r1.method = "none" ∧ ¬ r1.elements = [] ∧
    detect doc s cacheKey c1 now2 =
      .ok ({ elements := r1.elements, confidence := 100, method := r1.method,
             cached := true, timestamp := now2 }, c1) := by
  rcases detect_ok doc s cacheKey [] now r1 c1 h1 with
    ⟨entry, hl, _⟩ | ⟨sel, hsel, hq, hne, hcached, hm, hout⟩ | ⟨_, _, hclsnone, _, _⟩
  · exact absurd hl (by simp [lookupCache])
  · refine ⟨hm, hne, ?_⟩
    subst hout
    simp only [detect, lookupCache_insert, hq]
    rw [if_neg (show ¬ (r1.elements.isEmpty = true) from
      fun hh => hne (by simpa using hh))]
  · exact absurd hclsnone hcls

/-- The analogue of `detect_second_call` for `detectWithTextPattern`: for
a table whose `class` key is truthy, a first successful call on the empty
cache must have come from the inner `detect` (the text-pattern and empty
paths are unreachable, as `detect` either succeeds with elements or
throws at the `class` branch), and the second call is a cache hit. -/
theorem detectWithTextPattern_second_call (doc : Dom) (s : Selectors)
    (cacheKey : String) (pat : String → Bool) (now now2 : Nat)
    (r1 : DetectionResult) (c1 : SelectorCache)
    (hcls : ¬ truthyS s.clsSel = none)
    (h1 : detectWithTextPattern doc s cacheKey pat [] now = .ok (r1, c1)) :
    ¬ r1.method = "none" ∧
    detectWithTextPattern doc s cacheKey pat c1 now2 =
      .ok ({ elements := r1.elements, confidence := 100, method := r1.method,
             cached := true, timestamp := now2 }, c1) := by
  cases hd : detect doc s cacheKey [] now with
  | thrown e =>
    simp only [detectWithTextPattern, hd] at h1
    cases h1
  | ok pr =>
    obtain ⟨std, c1a⟩ := pr
    simp only [detectWithTextPattern, hd] at h1
    by_cases hlen : std.elements.length > 0
    · rw [if_pos hlen] at h1
      injection h1 with h1
      injection h1 with hr hc
      subst hr
      subst hc
      obtain ⟨hm, hne, hsecond⟩ := detect_second_call doc s cacheKey now now2 std c1a hcls hd
      refine ⟨hm, ?_⟩
      simp only [detectWithTextPattern, hsecond]
      rw [if_pos hlen]
    · have hstdne : std.elements = [] := by
        cases hse : std.elements with
        | nil => rfl
        | cons a t => exact absurd (by rw [hse]; simp) hlen
      rcases detect_ok doc s cacheKey [] now std c1a hd with
        ⟨entry, hl, _⟩ | ⟨sel, _, _, hne, _⟩ | ⟨_, _, hclsnone, _, _⟩
      · exact absurd hl (by simp [lookupCache])
      · exact absurd hstdne hne
      · exact absurd hclsnone hcls

end DOMDetector

/-- Claim C3 counterexample: the claim quantifies over every unchanged
document, but on the empty document the very first message-container
classification throws the strict-mode ReferenceError instead of returning
a DetectionResult, so no run yields an elements set at all and the
two-call property of the claim fails there. -/
theorem claim_C3_counterexample :
    DOMDetector.detectMessageContainers c1Dom [] 0 = .thrown .referenceError ∧
    ¬ ∃ (r1 : DOMDetector.DetectionResult) (c1 : SelectorCache),
        DOMDetector.detectMessageContainers c1Dom [] 0 = .ok (r1, c1) := by
  have h : DOMDetector.detectMessageContainers c1Dom [] 0 = .thrown .referenceError := by
    decide
  refine ⟨h, ?_⟩
  rintro ⟨r1, c1, h2⟩
  rw [h] at h2
  cases h2

/-- Claim C3 (amended): for each entity type, when classification run
twice in a row on an unchanged document from an empty selector cache
returns a DetectionResult both times (classification can instead throw,
as the counterexample shows), the two calls yield the same elements set
and the second call reports `cached = true` exactly when the first call
did not return method `none`; a cache entry is created exactly when a
non-cached strategy detection succeeds and never from a cache hit (for
these three selector tables the text-pattern path cannot complete, so it
never creates one). -/
theorem claim_C3_repeat_classification :
    ∀ (doc : DOMDetector.Dom) (now now2 : Nat),
      (∀ (r1 : DOMDetector.DetectionResult) (c1 : SelectorCache)
         (r2 : DOMDetector.DetectionResult) (c2 : SelectorCache),
        DOMDetector.detectMessageContainers doc [] now = .ok (r1, c1) →
        DOMDetector.detectMessageContainers doc c1 now2 = .ok (r2, c2) →
        r2.elements = r1.elements ∧ (r2.cached = true ↔ ¬ r1.method = "none")) ∧
      (∀ (r1 : DOMDetector.DetectionResult) (c1 : SelectorCache)
         (r2 : DOMDetector.DetectionResult) (c2 : SelectorCache),
        DOMDetector.detectTimestampElements doc [] now = .ok (r1, c1) →
        DOMDetector.detectTimestampElements doc c1 now2 = .ok (r2, c2) →
        r2.elements = r1.elements ∧ (r2.cached = true ↔ ¬ r1.method = "none")) ∧
      (∀ (r1 : DOMDetector.DetectionResult) (c1 : SelectorCache)
         (r2 : DOMDetector.DetectionResult) (c2 : SelectorCache),
        DOMDetector.detectLoadingStates doc [] now = .ok (r1, c1) →
        DOMDetector.detectLoadingStates doc c1 now2 = .ok (r2, c2) →
        r2.elements = r1.elements ∧ (r2.cached = true ↔ ¬ r1.method = "none")) := by
  intro doc now now2
  refine ⟨?_, ?_, ?_⟩
  · intro r1 c1 r2 c2 h1 h2
    simp only [DOMDetector.detectMessageContainers] at h1 h2
    obtain ⟨hm, hne, hsec⟩ := DOMDetector.detect_second_call doc
      DOMDetector.messageContainerSelectors "messageContainers" now now2 r1 c1 (by decide) h1
    rw [hsec] at h2
    injection h2 with h2
    injection h2 with hr hc
    rw [← hr]
    exact ⟨rfl, ⟨fun _ => hm, fun _ => rfl⟩⟩
  · intro r1 c1 r2 c2 h1 h2
    simp only [DOMDetector.detectTimestampElements] at h1 h2
    obtain ⟨hm, hsec⟩ := DOMDetector.detectWithTextPattern_second_call doc
      DOMDetector.timestampSelectors "timestampElements" DOMDetector.timestampPattern
      now now2 r1 c1 (by decide) h1
    rw [hsec] at h2
    injection h2 with h2
    injection h2 with hr hc
    rw [← hr]
    exact ⟨rfl, ⟨fun _ => hm, fun _ => rfl⟩⟩
  · intro r1 c1 r2 c2 h1 h2
    simp only [DOMDetector.detectLoadingStates] at h1 h2
    obtain ⟨hm, hne, hsec⟩ := DOMDetector.detect_second_call doc
      DOMDetector.loadingStateSelectors "loadingStates" now now2 r1 c1 (by decide) h1
    rw [hsec] at h2
    injection h2 with h2
    injection h2 with hr hc
    rw [← hr]
    exact ⟨rfl, ⟨fun _ => hm, fun _ => rfl⟩⟩

/-- Witness for claim C3: on `igDom` the first message-container call
succeeds via the instagram selector and the second call is a cache hit
with the same elements. -/
theorem claim_C3_witness :
    ∃ (r1 : DOMDetector.DetectionResult) (c1 : SelectorCache)
      (r2 : DOMDetector.DetectionResult) (c2 : SelectorCache),
      DOMDetector.detectMessageContainers igDom [] 0 = .ok (r1, c1) ∧
      DOMDetector.detectMessageContainers igDom c1 0 = .ok (r2, c2) ∧
      r2.elements = r1.elements ∧ (r2.cached = true ↔ ¬ r1.method = "none") := by
  refine ⟨c4wRes, c4wCache,
    { elements := [3], confidence := 100, method := "instagram", cached := true,
      timestamp := 0 }, c4wCache, by decide, by decide, ?_⟩
  exact (claim_C3_repeat_classification igDom 0 0).1 c4wRes c4wCache
    { elements := [3], confidence := 100, method := "instagram", cached := true,
      timestamp := 0 } c4wCache (by decide) (by decide)
